import Mathlib

/-!
Shallow embedding of the candidate-filtering and coordinate-extension core of
`tools/find_and_extend/find_and_extend.py` (the `extract_candidates` generator
and the main loop that consumes it), together with theorems settling the
specification's claims about that core.

Modelling conventions:
* Python `float` values (percent identity / coverage and their thresholds) are
  modelled as exact rationals `ℚ`; `float(...)` string parsing is modelled on
  the plain decimal subset actually produced by the tabular report.
* Python `int` coordinates are modelled as `ℤ`; `int(...)` parsing is modelled
  on signed decimal strings.
* `sys.exit(...)` and a failing `assert` both terminate the run; they are
  modelled as a `RunError` value that stops processing of the remaining lines.
* The lazy generator plus the consuming `for` loop are fused into one
  sequential pass `processLines`, which is observationally equivalent because
  the generator is pulled exactly once per loop iteration.
-/

namespace FindAndExtend

/-- Numeric value of a list of decimal digit characters, most significant
first (used by the models of Python `float(...)` and `int(...)`). -/
def digitsVal (cs : List Char) : ℕ :=
  cs.foldl (fun a c => 10 * a + (c.toNat - 48)) 0

/-- Split a character list at every occurrence of the separator, keeping
empty segments (the semantics shared by Python `str.split(sep)` and the
splitting needed for `line.split("\t")` and for counting `cols.split()`). -/
def splitSep (sep : Char) (acc : List Char) : List Char → List (List Char)
  | [] => [acc.reverse]
  | c :: cs =>
    if c = sep then acc.reverse :: splitSep sep [] cs
    else splitSep sep (c :: acc) cs

/-- Model of Python `float(...)` on an unsigned decimal character string:
either all digits, or digits-dot-digits with at least one digit present.
The value `ip.fp` is the exact rational `(ip * 10^|fp| + fp) / 10^|fp|`.
Returns `none` where `float` would raise `ValueError` (on this subset). -/
def parseUFloat (cs : List Char) : Option ℚ :=
  match splitSep '.' [] cs with
  | [ip] =>
      if ip ≠ [] ∧ ip.all Char.isDigit then some (digitsVal ip) else none
  | [ip, fp] =>
      if (ip ≠ [] ∨ fp ≠ []) ∧ ip.all Char.isDigit ∧ fp.all Char.isDigit then
        some (mkRat (digitsVal ip * 10 ^ fp.length + digitsVal fp) (10 ^ fp.length))
      else none
  | _ => none

/-- Model of Python `float(...)` on a decimal string with optional sign. -/
def parseFloat (s : String) : Option ℚ :=
  match s.toList with
  | '-' :: cs => (parseUFloat cs).map Rat.neg
  | '+' :: cs => parseUFloat cs
  | cs => parseUFloat cs

/-- Model of Python `int(...)` on an unsigned decimal character string. -/
def parseUInt (cs : List Char) : Option ℤ :=
  if cs ≠ [] ∧ cs.all Char.isDigit then some (digitsVal cs : ℤ) else none

/-- Model of Python `int(...)` on a decimal string with optional sign. -/
def parseInt (s : String) : Option ℤ :=
  match s.toList with
  | '-' :: cs => (parseUInt cs).map (fun z => -z)
  | '+' :: cs => parseUInt cs
  | cs => parseUInt cs

/-- `line.rstrip("\n")`: drop all trailing newline characters. -/
def rstripNewline (s : String) : String :=
  ⟨(s.toList.reverse.dropWhile (fun c => c = '\n')).reverse⟩

/-- `cols = "qseqid sseqid pident qcovhsp sstart send slen"` from the source. -/
def cols : String := "qseqid sseqid pident qcovhsp sstart send slen"

/-- `col_count = len(cols.split())` from `extract_candidates` (here `cols`
contains single spaces only, so splitting on the space character agrees with
Python's whitespace-run `split()`). -/
def col_count : ℕ := (splitSep ' ' [] cols.toList).length

/-- `line.startswith("#")` from `extract_candidates`: the raw line (before
the newline strip) begins with the comment marker. -/
def isComment (line : String) : Bool :=
  match line.toList with
  | '#' :: _ => true
  | _ => false

/-- Column index `c_query = 0`. -/
def c_query : ℕ := 0

/-- Column index `c_match = 1`. -/
def c_match : ℕ := 1

/-- Column index `c_identity = 2`. -/
def c_identity : ℕ := 2

/-- Column index `c_coverage = 3`. -/
def c_coverage : ℕ := 3

/-- Column index `c_sstart = 4`. -/
def c_sstart : ℕ := 4

/-- Column index `c_send = 5`. -/
def c_send : ℕ := 5

/-- Column index `c_slen = 6`. -/
def c_slen : ℕ := 6

/-- The run-level configuration consumed by the filtering/extension core:
`min_identity`, `min_coverage` (floats, modelled as `ℚ`) and the
`up_extend` / `down_extend` flank sizes (ints). -/
structure FilterConfig where
  min_identity : ℚ
  min_coverage : ℚ
  up_extend : ℤ
  down_extend : ℤ
  deriving DecidableEq

/-- `parts = line.rstrip("\n").split("\t")` from `extract_candidates`. -/
def splitLine (line : String) : List String :=
  (splitSep '\t' [] (rstripNewline line).toList).map (fun cs => ⟨cs⟩)

/-- The ways the run terminates abnormally inside the core: the
wrong-column-count `sys.exit` (carrying expected count, actual count and the
offending line, as the exit message does), a `ValueError` from `float(...)` or
`int(...)`, and the `assert 1 <= start < end <= length` failure
(`"Reverse strand?"`). -/
inductive RunError where
  | malformed (expected actual : ℕ) (line : String)
  | badNumber (text : String)
  | reverseStrand (idn : String) (sstart send slen : ℤ)
  deriving DecidableEq

/-- Outcome of `extract_candidates` on a single line: silently skipped,
fatal error, or a yielded `(accession, start, end, length)` candidate. -/
inductive StepResult where
  | skip
  | fatal (e : RunError)
  | cand (idn : String) (sstart send slen : ℤ)
  deriving DecidableEq

/-- The body of the `for line in h` loop of `extract_candidates`:
skip comment lines, check the column count, apply the identity filter, then
the coverage filter (in the source's short-circuit order: the coverage field
is only parsed when the identity test did not already drop the line, and the
coordinate fields are only parsed when both filters pass). -/
def stepLine (cfg : FilterConfig) (line : String) : StepResult :=
  if isComment line then .skip
  else if (splitLine line).length ≠ col_count then
    .fatal (.malformed col_count (splitLine line).length line)
  else
    match parseFloat ((splitLine line).getD c_identity "") with
    | none => .fatal (.badNumber ((splitLine line).getD c_identity ""))
    | some pident =>
      if pident < cfg.min_identity then .skip
      else
        match parseFloat ((splitLine line).getD c_coverage "") with
        | none => .fatal (.badNumber ((splitLine line).getD c_coverage ""))
        | some qcovhsp =>
          if qcovhsp < cfg.min_coverage then .skip
          else
            match parseInt ((splitLine line).getD c_sstart ""),
                  parseInt ((splitLine line).getD c_send ""),
                  parseInt ((splitLine line).getD c_slen "") with
            | some s, some e, some l => .cand ((splitLine line).getD c_match "") s e l
            | _, _, _ => .fatal (.badNumber line)

/-- The record-level filter condition of line 196 of the source,
`not (pident < min_identity or qcovhsp < min_coverage)`: a record is kept
exactly when the `continue` branch is not taken. -/
def passesFilter (cfg : FilterConfig) (pident qcovhsp : ℚ) : Bool :=
  !(decide (pident < cfg.min_identity) || decide (qcovhsp < cfg.min_coverage))

/-- `req_start = max(1, start - up_extend)` from the main loop. -/
def req_start (sstart up_extend : ℤ) : ℤ :=
  max 1 (sstart - up_extend)

/-- `req_end = min(end + down_extend, length)` from the main loop. -/
def req_end (send down_extend slen : ℤ) : ℤ :=
  min (send + down_extend) slen

/-- The extension window handed to `blastdbcmd`: accession plus the clamped
inclusive 1-based range. -/
structure ExtensionWindow where
  idn : String
  start : ℤ
  stop : ℤ
  deriving DecidableEq

/-- The whole filtering/extension pass: `extract_candidates` fused with the
consuming `for` loop.  Returns the extension windows produced (in order), the
final candidate `count`, and the error that halted the run, if any.  Per the
source, `count += 1` happens before the strand assertion, so a candidate that
fails the assertion is counted but yields no window and halts the run. -/
def processLines (cfg : FilterConfig) : List String → List ExtensionWindow × ℕ × Option RunError
  | [] => ([], 0, none)
  | line :: rest =>
    match stepLine cfg line with
    | .skip => processLines cfg rest
    | .fatal err => ([], 0, some err)
    | .cand idn s e l =>
      if 1 ≤ s ∧ s < e ∧ e ≤ l then
        (⟨idn, req_start s cfg.up_extend, req_end e cfg.down_extend l⟩ ::
           (processLines cfg rest).1,
         (processLines cfg rest).2.1 + 1, (processLines cfg rest).2.2)
      else
        ([], 1, some (.reverseStrand idn s e l))

/-- The default configuration of the spec scenarios: thresholds 95/95 and
50-base flanks. -/
def cfg95 : FilterConfig := ⟨95, 95, 50, 50⟩

/-- The report line of the spec scenario: passes the 95/95 filter with
coordinates 10..20 on a subject of length 1000. -/
def exampleLine : String := "Q1\tS1\t96.0\t98.0\t10\t20\t1000"

/-- A report line with only six tab-separated fields. -/
def sixFieldLine : String := "Q1\tS1\t96.0\t98.0\t10\t20"

/-- A filter-passing report line with reversed coordinates (start 20, end 10). -/
def reversedLine : String := "Q1\tS1\t96.0\t98.0\t20\t10\t1000"

/-- A line that fails the identity filter (10.0 < 95) and also has reversed
coordinates. -/
def lowReversedLine : String := "Q1\tS1\t10.0\t98.0\t20\t10\t1000"

/-- The fixed column specification has seven columns. -/
theorem col_count_eq : col_count = 7 := by decide

/-- C1: a tabular record passes the filter exactly when its percent identity
is at least the configured minimum identity and its query coverage is at
least the configured minimum coverage; both comparisons are inclusive, so a
record equal to a threshold passes. -/
theorem passesFilter_iff_thresholds (cfg : FilterConfig) (pident qcovhsp : ℚ) :
    passesFilter cfg pident qcovhsp = true ↔
      (cfg.min_identity ≤ pident ∧ cfg.min_coverage ≤ qcovhsp) := by
  simp [passesFilter, not_lt]

/-- C2: every candidate yielded by the line step that satisfies the strand
check produces exactly the window with start `max(1, sstart - up_extend)` and
stop `min(send + down_extend, slen)`; and on the spec scenario line
`Q1 S1 96.0 98.0 10 20 1000` with thresholds 95/95 and flanks 50/50 the run
produces exactly the window `(S1, 1, 70)`. -/
theorem window_formula_and_scenario :
    (∀ (cfg : FilterConfig) (line : String) (rest : List String)
       (idn : String) (s e l : ℤ),
       stepLine cfg line = .cand idn s e l →
       (1 ≤ s ∧ s < e ∧ e ≤ l) →
       processLines cfg (line :: rest) =
         (⟨idn, max 1 (s - cfg.up_extend), min (e + cfg.down_extend) l⟩ ::
            (processLines cfg rest).1,
          (processLines cfg rest).2.1 + 1, (processLines cfg rest).2.2)) ∧
    processLines cfg95 [exampleLine] = ([⟨"S1", 1, 70⟩], 1, none) := by
  constructor
  · intro cfg line rest idn s e l hstep hinv
    simp [processLines, hstep, hinv, req_start, req_end]
  · decide

/-- C2 witness: the general window formula applied to the scenario line. -/
theorem window_formula_and_scenario_witness :
    processLines cfg95 [exampleLine] =
      (⟨"S1", max 1 ((10 : ℤ) - cfg95.up_extend),
          min ((20 : ℤ) + cfg95.down_extend) 1000⟩ :: (processLines cfg95 []).1,
       (processLines cfg95 []).2.1 + 1, (processLines cfg95 []).2.2) :=
  window_formula_and_scenario.1 cfg95 exampleLine [] "S1" 10 20 1000
    (by decide) (by decide)

/-- C3: under the coordinate precondition `1 ≤ sstart < send ≤ slen` and
non-negative flank sizes, the computed window satisfies
`1 ≤ req_start ≤ req_end ≤ slen`. -/
theorem window_within_subject_bounds (sstart send slen up down : ℤ)
    (h1 : 1 ≤ sstart) (h2 : sstart < send) (h3 : send ≤ slen)
    (hup : 0 ≤ up) (hdown : 0 ≤ down) :
    1 ≤ req_start sstart up ∧
      req_start sstart up ≤ req_end send down slen ∧
      req_end send down slen ≤ slen := by
  unfold req_start req_end
  omega

/-- C3 witness: the bounds at the scenario coordinates. -/
theorem window_within_subject_bounds_witness :
    1 ≤ req_start 10 50 ∧
      req_start 10 50 ≤ req_end 20 50 1000 ∧ req_end 20 50 1000 ≤ 1000 :=
  window_within_subject_bounds 10 20 1000 50 50
    (by decide) (by decide) (by decide) (by decide) (by decide)

/-- C4: a non-comment line whose tab-separated field count differs from the
expected column count halts the run with the malformed-report error carrying
the expected count, the actual count and the offending line; no window is
produced and the pass count is not incremented for that line (nor for any
later line). -/
theorem malformed_line_halts_run (cfg : FilterConfig) (line : String)
    (rest : List String) (hnc : isComment line = false)
    (hcount : (splitLine line).length ≠ col_count) :
    processLines cfg (line :: rest) =
      ([], 0, some (.malformed col_count (splitLine line).length line)) := by
  simp [processLines, stepLine, hnc, hcount]

/-- C4 witness: the six-field line halts the run with the 7-vs-6 error. -/
theorem malformed_line_halts_run_witness :
    processLines cfg95 [sixFieldLine] =
      ([], 0,
       some (.malformed col_count (splitLine sixFieldLine).length sixFieldLine)) :=
  malformed_line_halts_run cfg95 sixFieldLine [] (by decide) (by decide)

/-- C5: a line that passes the filter (it is yielded as a candidate) but
violates the coordinate invariant `1 ≤ start < end ≤ length` fails the
strand assertion before any window is computed: the run halts with the
invariant-violation error and no window is produced for it or any later
line. -/
theorem reversed_candidate_halts_run (cfg : FilterConfig) (line : String)
    (rest : List String) (idn : String) (s e l : ℤ)
    (hstep : stepLine cfg line = .cand idn s e l)
    (hbad : ¬(1 ≤ s ∧ s < e ∧ e ≤ l)) :
    processLines cfg (line :: rest) = ([], 1, some (.reverseStrand idn s e l)) := by
  simp [processLines, hstep, hbad]

/-- C5 witness: the reversed-coordinate line (start 20, end 10) halts the
run with the invariant-violation error. -/
theorem reversed_candidate_halts_run_witness :
    processLines cfg95 [reversedLine] =
      ([], 1, some (.reverseStrand "S1" 20 10 1000)) :=
  reversed_candidate_halts_run cfg95 reversedLine [] "S1" 20 10 1000
    (by decide) (by decide)

/-- C6: a line beginning with the comment marker is skipped: it yields no
record, raises no error, leaves the pass count unchanged, and processing
continues with the remaining lines exactly as if the line were absent. -/
theorem comment_line_skipped (cfg : FilterConfig) (line : String)
    (rest : List String) (hc : isComment line = true) :
    processLines cfg (line :: rest) = processLines cfg rest := by
  simp [processLines, stepLine, hc]

/-- C6 witness: a concrete comment line before the scenario line is skipped. -/
theorem comment_line_skipped_witness :
    processLines cfg95 ["# BLASTN 2.2.28+", exampleLine] =
      processLines cfg95 [exampleLine] :=
  comment_line_skipped cfg95 "# BLASTN 2.2.28+" [exampleLine] (by decide)

/-- C7: when the whole report is processed without a fatal error, the final
count written to the diagnostic stream equals the number of extension
windows produced. -/
theorem final_count_eq_window_count (cfg : FilterConfig) :
    ∀ (lines : List String) (ws : List ExtensionWindow) (c : ℕ),
      processLines cfg lines = (ws, c, none) → c = ws.length := by
  intro lines
  induction lines with
  | nil =>
    intro ws c h
    simp only [processLines] at h
    injection h with hw hrest
    injection hrest with hc herr
    simp [← hw, ← hc]
  | cons line rest ih =>
    intro ws c h
    simp only [processLines] at h
    split at h
    · exact ih ws c h
    · simp at h
    · split at h
      · injection h with hw hrest
        injection hrest with hc herr
        have hrec := ih (processLines cfg rest).1 (processLines cfg rest).2.1
          (by rw [← herr])
        simp [← hw, ← hc, hrec]
      · simp at h

/-- C7 witness: on the one-line scenario report, the count 1 equals the
length of the produced window list. -/
theorem final_count_eq_window_count_witness :
    (1 : ℕ) = ([(⟨"S1", 1, 70⟩ : ExtensionWindow)] : List ExtensionWindow).length :=
  final_count_eq_window_count cfg95 [exampleLine] [⟨"S1", 1, 70⟩] 1 (by decide)

/-- C8: the filter-and-extend pass is deterministic and order-preserving:
two runs over equal line sequences with equal configurations produce equal
results (same windows in the same order, same count, same error). -/
theorem transform_deterministic (cfg1 cfg2 : FilterConfig)
    (lines1 lines2 : List String) (hcfg : cfg1 = cfg2) (hl : lines1 = lines2) :
    processLines cfg1 lines1 = processLines cfg2 lines2 := by
  rw [hcfg, hl]

/-- C8 witness: two runs over the scenario report coincide. -/
theorem transform_deterministic_witness :
    processLines cfg95 [exampleLine] = processLines cfg95 [exampleLine] :=
  transform_deterministic cfg95 cfg95 [exampleLine] [exampleLine] rfl rfl

/-- C9: under the coordinate precondition and non-negative flank sizes, the
computed window contains the original match: the window start is at most the
subject start and the subject end is at most the window stop. -/
theorem window_contains_original_match (sstart send slen up down : ℤ)
    (h1 : 1 ≤ sstart) (_h2 : sstart < send) (h3 : send ≤ slen)
    (hup : 0 ≤ up) (hdown : 0 ≤ down) :
    req_start sstart up ≤ sstart ∧ send ≤ req_end send down slen := by
  unfold req_start req_end
  omega

/-- C9 witness: containment at the scenario coordinates. -/
theorem window_contains_original_match_witness :
    req_start 10 50 ≤ 10 ∧ (20 : ℤ) ≤ req_end 20 50 1000 :=
  window_contains_original_match 10 20 1000 50 50
    (by decide) (by decide) (by decide) (by decide) (by decide)

/-- C10: the coordinate invariant is checked only for records that pass the
identity/coverage filter.  For a fully parsed record line: if the record
fails the filter, the line is dropped silently — the run continues on the
remaining lines with no invariant-violation error even when the coordinates
are reversed; if the record passes the filter, processing the line raises
the invariant-violation error exactly when the record violates
`1 ≤ start < end ≤ length`. -/
theorem invariant_checked_only_for_passing (cfg : FilterConfig) (line : String)
    (rest : List String) (q m fid fcov fs fe fl : String)
    (pident qcovhsp : ℚ) (s e l : ℤ)
    (hnc : isComment line = false)
    (hparts : splitLine line = [q, m, fid, fcov, fs, fe, fl])
    (hpid : parseFloat fid = some pident)
    (hcov : parseFloat fcov = some qcovhsp)
    (hs : parseInt fs = some s) (he : parseInt fe = some e)
    (hl : parseInt fl = some l) :
    (passesFilter cfg pident qcovhsp = false →
       processLines cfg (line :: rest) = processLines cfg rest) ∧
    (passesFilter cfg pident qcovhsp = true →
       (processLines cfg [line] = ([], 1, some (.reverseStrand m s e l)) ↔
          ¬(1 ≤ s ∧ s < e ∧ e ≤ l))) := by
  have hlen : (splitLine line).length = col_count := by
    rw [hparts, col_count_eq]
    rfl
  have hstep : stepLine cfg line =
      (if pident < cfg.min_identity then .skip
       else if qcovhsp < cfg.min_coverage then .skip
       else .cand m s e l) := by
    simp [stepLine, hnc, hlen, hparts, col_count_eq, c_identity, c_coverage,
      c_sstart, c_send, c_slen, c_match, hpid, hcov, hs, he, hl]
  constructor
  · intro hfail
    have hor : pident < cfg.min_identity ∨ qcovhsp < cfg.min_coverage := by
      by_contra hno
      rw [not_or, not_lt, not_lt] at hno
      have d1 : decide (pident < cfg.min_identity) = false :=
        decide_eq_false (not_lt.mpr hno.1)
      have d2 : decide (qcovhsp < cfg.min_coverage) = false :=
        decide_eq_false (not_lt.mpr hno.2)
      rw [passesFilter, d1, d2] at hfail
      simp at hfail
    have hskip : stepLine cfg line = .skip := by
      rcases hor with h | h
      · rw [hstep, if_pos h]
      · rw [hstep]
        by_cases h1 : pident < cfg.min_identity
        · rw [if_pos h1]
        · rw [if_neg h1, if_pos h]
    simp [processLines, hskip]
  · intro hpass
    have hboth : cfg.min_identity ≤ pident ∧ cfg.min_coverage ≤ qcovhsp := by
      constructor
      · by_contra hno
        rw [not_le] at hno
        rw [passesFilter, decide_eq_true hno] at hpass
        simp at hpass
      · by_contra hno
        rw [not_le] at hno
        rw [passesFilter, decide_eq_true hno, Bool.or_true] at hpass
        simp at hpass
    have hcand : stepLine cfg line = .cand m s e l := by
      rw [hstep, if_neg (not_lt.mpr hboth.1), if_neg (not_lt.mpr hboth.2)]
    by_cases hinv : 1 ≤ s ∧ s < e ∧ e ≤ l
    · simp [processLines, hcand, hinv]
    · simp [processLines, hcand, hinv]

/-- C10 witness: the low-identity reversed-coordinate line is dropped
silently, with no invariant-violation error. -/
theorem invariant_checked_only_for_passing_witness :
    processLines cfg95 [lowReversedLine] = processLines cfg95 [] :=
  (invariant_checked_only_for_passing cfg95 lowReversedLine [] "Q1" "S1"
      "10.0" "98.0" "20" "10" "1000" 10 98 20 10 1000
      (by decide) (by decide) (by decide) (by decide) (by decide) (by decide)
      (by decide)).1 (by decide)

end FindAndExtend
